import Mathlib

/-!
Verification of the runtime behavior of the sveltekit-d1-tailwindcss-template
repository: the client error hook `handleError` (hooks.client.js) and the two
service-worker lifecycle listeners (src/service-worker.js).

The JavaScript is shallowly embedded: JS values are the inductive `JSValue`,
the optional-chaining access `error?.code` is `optionalMember`, the nullish
coalescing operator `??` is `nullishCoalesce`, and a function that could throw
returns in `Except JSValue`.
-/

/-- A JavaScript value: one of the two nullish values, a boolean, a number
(modelled as an integer, sufficient here), a string, or a plain object given
as an association list of named fields. -/
inductive JSValue where
  | undefined
  | null
  | bool (b : Bool)
  | num (n : Int)
  | str (s : String)
  | obj (fields : List (String × JSValue))

/-- Property read on an object's field list: the value of the first field
named `k`, or `undefined` when no such field exists (JS semantics of reading
an absent property). -/
def getField (fields : List (String × JSValue)) (k : String) : JSValue :=
  ((fields.find? (fun p => p.1 == k)).map Prod.snd).getD JSValue.undefined

/-- Optional-chaining property access `v?.k`: `undefined` when `v` is nullish,
the field value for an object, and `undefined` for the remaining primitives
(which have no `k` property). This never throws. -/
def optionalMember (v : JSValue) (k : String) : JSValue :=
  match v with
  | .obj fields => getField fields k
  | _ => .undefined

/-- Plain (non-optional) property access `v.k`, which throws a TypeError when
`v` is nullish. Used to contrast with `optionalMember`. -/
def member (v : JSValue) (k : String) : Except JSValue JSValue :=
  match v with
  | .null => Except.error (JSValue.str "TypeError")
  | .undefined => Except.error (JSValue.str "TypeError")
  | .obj fields => Except.ok (getField fields k)
  | _ => Except.ok .undefined

/-- The nullish coalescing operator `a ?? b`: `b` exactly when `a` is `null`
or `undefined`, otherwise `a` unchanged (even when `a` is falsy, such as the
empty string, `false` or `0`). -/
def nullishCoalesce (a b : JSValue) : JSValue :=
  match a with
  | .null => b
  | .undefined => b
  | _ => a

/-- Whether the value is an object that actually carries a field named `k`
(the JS `k in v` test, restricted to own properties of plain objects). -/
def hasAttr (v : JSValue) (k : String) : Bool :=
  match v with
  | .obj fields => (fields.find? (fun p => p.1 == k)).isSome
  | _ => false

/-- The value of field `k` when `v` is an object carrying it, `none`
otherwise. -/
def attrValue (v : JSValue) (k : String) : Option JSValue :=
  match v with
  | .obj fields => (fields.find? (fun p => p.1 == k)).map Prod.snd
  | _ => none

/-- Whether the value is a JS string. -/
def isString (v : JSValue) : Bool :=
  match v with
  | .str _ => true
  | _ => false

/-- The normalized error record returned by the client error hook: a display
message and an error code. -/
structure ErrorRecord where
  message : String
  code : JSValue

/-- The client error hook from hooks.client.js:

  export const handleError = ({ error, event }) => {
    console.error('Client error:', error);
    return { message: 'An unexpected error occurred.', code: error?.code ?? 'UNKNOWN' };
  };

The result carries the arguments passed to console.error alongside the
returned record; the `Except` layer records that the body could in principle
throw (it never does: `error?.code` is optional chaining). The `event`
parameter is destructured but never used in the body. -/
def handleError (error _event : JSValue) : Except JSValue (List JSValue × ErrorRecord) :=
  Except.ok ([JSValue.str "Client error:", error],
    { message := "An unexpected error occurred.",
      code := nullishCoalesce (optionalMember error "code") (JSValue.str "UNKNOWN") })

/-- An observable service-worker action requested by a lifecycle listener. -/
inductive SWAction where
  | skipWaiting
  | claimClients
deriving DecidableEq

/-- The install listener from src/service-worker.js: its body is the single
call `self.skipWaiting();`, modelled as the trace of actions it performs. -/
def installListener (_event : JSValue) : List SWAction :=
  [SWAction.skipWaiting]

/-- The activate listener from src/service-worker.js: its body is the single
call `self.clients.claim();`, modelled as the trace of actions it performs. -/
def activateListener (_event : JSValue) : List SWAction :=
  [SWAction.claimClients]

/-- Helper: when an object carries a field `k` with value `v`, reading `k`
yields `v`. -/
theorem getField_eq_of_attrValue (fields : List (String × JSValue)) (k : String)
    (v : JSValue) (h : attrValue (JSValue.obj fields) k = some v) :
    getField fields k = v := by
  simp only [attrValue] at h
  simp only [getField, h, Option.getD_some]

/-- Helper: coalescing leaves a non-nullish value unchanged. -/
theorem nullishCoalesce_eq_self (v b : JSValue) (hn : v ≠ JSValue.null)
    (hu : v ≠ JSValue.undefined) : nullishCoalesce v b = v := by
  cases v <;> simp_all [nullishCoalesce]

/-- Helper: a non-object value carries no field. -/
theorem attrValue_eq_none (v : JSValue) (k : String)
    (h : ∀ fields, v ≠ JSValue.obj fields) : attrValue v k = none := by
  cases v <;> simp_all [attrValue]

/-- Claim C1 as stated is refuted: the error object with its code field set
to null does have a code field, yet handleError returns the code "UNKNOWN",
which is not null. -/
theorem handleError_null_code_counterexample :
    hasAttr (JSValue.obj [("code", JSValue.null)]) "code" = true ∧
    handleError (JSValue.obj [("code", JSValue.null)]) JSValue.undefined =
      Except.ok ([JSValue.str "Client error:", JSValue.obj [("code", JSValue.null)]],
        ⟨"An unexpected error occurred.", JSValue.str "UNKNOWN"⟩) ∧
    JSValue.str "UNKNOWN" ≠ JSValue.null :=
  ⟨rfl, rfl, by simp⟩

/-- Claim C1 (amended): for every error object whose code field is set to a
value V that is neither null nor undefined, handleError returns a record
whose code equals V. -/
theorem handleError_code_propagated (error event v : JSValue)
    (h : attrValue error "code" = some v)
    (hn : v ≠ JSValue.null) (hu : v ≠ JSValue.undefined) :
    ∃ log, handleError error event =
      Except.ok (log, ⟨"An unexpected error occurred.", v⟩) := by
  cases error with
  | obj fields =>
    refine ⟨[JSValue.str "Client error:", JSValue.obj fields], ?_⟩
    have hg : optionalMember (JSValue.obj fields) "code" = v :=
      getField_eq_of_attrValue fields "code" v h
    simp only [handleError, hg, nullishCoalesce_eq_self v _ hn hu]
  | undefined => simp [attrValue] at h
  | null => simp [attrValue] at h
  | bool b => simp [attrValue] at h
  | num n => simp [attrValue] at h
  | str s => simp [attrValue] at h

/-- Witness for C1 at the concrete error object with code "E42". -/
theorem handleError_code_propagated_witness :
    attrValue (JSValue.obj [("code", JSValue.str "E42")]) "code" =
      some (JSValue.str "E42") ∧
    JSValue.str "E42" ≠ JSValue.null ∧
    JSValue.str "E42" ≠ JSValue.undefined ∧
    ∃ log, handleError (JSValue.obj [("code", JSValue.str "E42")]) JSValue.null =
      Except.ok (log, ⟨"An unexpected error occurred.", JSValue.str "E42"⟩) :=
  ⟨rfl, by simp, by simp,
    handleError_code_propagated _ _ _ rfl (by simp) (by simp)⟩

/-- Claim C2: for every error value lacking a code field (including all
non-object values), handleError returns the code "UNKNOWN". -/
theorem handleError_missing_code_unknown (error event : JSValue)
    (h : hasAttr error "code" = false) :
    ∃ log, handleError error event =
      Except.ok (log, ⟨"An unexpected error occurred.", JSValue.str "UNKNOWN"⟩) := by
  cases error with
  | obj fields =>
    refine ⟨[JSValue.str "Client error:", JSValue.obj fields], ?_⟩
    have hf : fields.find? (fun p => p.1 == "code") = none := by
      cases hf : fields.find? (fun p => p.1 == "code") with
      | none => rfl
      | some p => simp [hasAttr, hf] at h
    simp [handleError, optionalMember, getField, hf, nullishCoalesce]
  | undefined => exact ⟨_, rfl⟩
  | null => exact ⟨_, rfl⟩
  | bool b => exact ⟨_, rfl⟩
  | num n => exact ⟨_, rfl⟩
  | str s => exact ⟨_, rfl⟩

/-- Witness for C2 at a concrete object without a code field. -/
theorem handleError_missing_code_unknown_witness :
    hasAttr (JSValue.obj [("name", JSValue.str "TypeError")]) "code" = false ∧
    ∃ log, handleError (JSValue.obj [("name", JSValue.str "TypeError")]) JSValue.null =
      Except.ok (log, ⟨"An unexpected error occurred.", JSValue.str "UNKNOWN"⟩) :=
  ⟨rfl, handleError_missing_code_unknown _ _ rfl⟩

/-- Claim C3: for every error value and every event descriptor, the message
of the returned record is the fixed string. -/
theorem handleError_message_fixed (error event : JSValue) :
    ∃ log code, handleError error event =
      Except.ok (log, ⟨"An unexpected error occurred.", code⟩) :=
  ⟨_, _, rfl⟩

/-- Claim C4: for every input, handleError runs to completion and returns a
record; it never throws (its exceptional branch is unreachable). -/
theorem handleError_never_throws (error event : JSValue) :
    ∃ r, handleError error event = Except.ok r :=
  ⟨_, rfl⟩

/-- Claim C5 as stated is refuted: an error object whose code field holds the
number 5 makes handleError return the number 5 as its code, which is not a
string. -/
theorem handleError_code_not_string_counterexample :
    handleError (JSValue.obj [("code", JSValue.num 5)]) JSValue.undefined =
      Except.ok ([JSValue.str "Client error:", JSValue.obj [("code", JSValue.num 5)]],
        ⟨"An unexpected error occurred.", JSValue.num 5⟩) ∧
    isString (JSValue.num 5) = false :=
  ⟨rfl, rfl⟩

/-- Claim C5 (amended): for every input, the code of the returned record is
either the fallback string "UNKNOWN" or exactly the value of the error's code
field (which need not be a string). -/
theorem handleError_code_attr_or_unknown (error event : JSValue) :
    ∃ log r, handleError error event = Except.ok (log, r) ∧
      (r.code = JSValue.str "UNKNOWN" ∨ attrValue error "code" = some r.code) := by
  refine ⟨_, _, rfl, ?_⟩
  cases error with
  | obj fields =>
    cases hf : fields.find? (fun p => p.1 == "code") with
    | none => simp [optionalMember, getField, hf, nullishCoalesce]
    | some p =>
      obtain ⟨k, v⟩ := p
      cases v <;> simp [optionalMember, getField, attrValue, hf, nullishCoalesce]
  | undefined => exact Or.inl rfl
  | null => exact Or.inl rfl
  | bool b => exact Or.inl rfl
  | num n => exact Or.inl rfl
  | str s => exact Or.inl rfl

/-- Claim C6: each invocation of the install listener performs the
skip-waiting action exactly once. -/
theorem installListener_skipWaiting_once (event : JSValue) :
    (installListener event).count SWAction.skipWaiting = 1 :=
  rfl

/-- Claim C7: each invocation of the activate listener performs the
client-claim action exactly once. -/
theorem activateListener_claimClients_once (event : JSValue) :
    (activateListener event).count SWAction.claimClients = 1 :=
  rfl

/-- Claim C8: the result of handleError (its log and its returned record) is
independent of the event descriptor. -/
theorem handleError_independent_of_event (error e1 e2 : JSValue) :
    handleError error e1 = handleError error e2 :=
  rfl

/-- Claim C9: when the error value itself is null or undefined, handleError
still returns the fallback record, whereas plain (non-optional) access to the
code field of such a value would throw a TypeError. -/
theorem handleError_nullish_error_safe (event : JSValue) :
    handleError JSValue.null event =
      Except.ok ([JSValue.str "Client error:", JSValue.null],
        ⟨"An unexpected error occurred.", JSValue.str "UNKNOWN"⟩) ∧
    handleError JSValue.undefined event =
      Except.ok ([JSValue.str "Client error:", JSValue.undefined],
        ⟨"An unexpected error occurred.", JSValue.str "UNKNOWN"⟩) ∧
    member JSValue.null "code" = Except.error (JSValue.str "TypeError") ∧
    member JSValue.undefined "code" = Except.error (JSValue.str "TypeError") :=
  ⟨rfl, rfl, rfl, rfl⟩

/-- Claim C10: a code field holding a falsy but non-nullish value (such as
the empty string) is returned unchanged; the "UNKNOWN" fallback is not
applied to it. -/
theorem handleError_falsy_code_preserved (fields : List (String × JSValue))
    (event v : JSValue)
    (h : attrValue (JSValue.obj fields) "code" = some v)
    (hn : v ≠ JSValue.null) (hu : v ≠ JSValue.undefined) :
    ∃ log, handleError (JSValue.obj fields) event =
      Except.ok (log, ⟨"An unexpected error occurred.", v⟩) := by
  refine ⟨[JSValue.str "Client error:", JSValue.obj fields], ?_⟩
  have hg : optionalMember (JSValue.obj fields) "code" = v :=
    getField_eq_of_attrValue fields "code" v h
  simp only [handleError, hg, nullishCoalesce_eq_self v _ hn hu]

/-- Witness for C10 at the concrete error object whose code is the empty
string: the empty string is kept, not replaced by "UNKNOWN". -/
theorem handleError_falsy_code_preserved_witness :
    attrValue (JSValue.obj [("code", JSValue.str "")]) "code" =
      some (JSValue.str "") ∧
    JSValue.str "" ≠ JSValue.null ∧
    JSValue.str "" ≠ JSValue.undefined ∧
    ∃ log, handleError (JSValue.obj [("code", JSValue.str "")]) JSValue.null =
      Except.ok (log, ⟨"An unexpected error occurred.", JSValue.str ""⟩) :=
  ⟨rfl, by simp, by simp,
    handleError_falsy_code_preserved _ _ _ rfl (by simp) (by simp)⟩
